import Mathlib

/-!
Shallow embedding of the character-extractor agent
(`src/characterExtractor.ts` / `src/main.ts`) and proofs about its
step-processing function `run`.

The external collaborators (JSON parsing, the Step Store Client's
`getStep`, `updateStep` and `logTask`, and the Extraction Capability's
`extractCharacters`) are modelled by a `World` record fixing the outcome
of each call; `run` is then a deterministic function from a `World` to
the trace of observable events it performs, paired with the error (if
any) that escapes to the caller.  Every `await`ed external call that the
code makes is recorded as an event in the trace, in program order.
-/

namespace CharacterExtractorAgent

/-- Execution status of a step, mirroring the `AgentExecutionStatus` enum
from `@nevermined-io/payments` as used by `src/main.ts` (the code only
references `Pending`, `Completed` and `Failed`; `In_Progress` stands in
for the remaining non-actionable statuses). -/
inductive AgentExecutionStatus where
  | Pending
  | In_Progress
  | Completed
  | Failed
  deriving DecidableEq, Repr

/-- One extracted character, as described by the prompt in
`src/characterExtractor.ts`: ten free-form descriptive string fields. -/
structure CharacterRecord where
  name : String
  age : String
  gender : String
  species : String
  physical_description : String
  attire : String
  personality_traits : String
  role : String
  scene_description : String
  additional_notes : String
  deriving DecidableEq, Repr

/-- A step as fetched from the Step Store (`payments.query.getStep`).
`input_query` is an `Option` because the TS payload may lack the field
(`step.input_query || ""` in the code normalizes absence to the empty
string).  `extra` stands for all remaining payload fields of the TS step
object, which the code never reads and which the spread `{...step, ...}`
carries through unchanged into the update. -/
structure Step where
  task_id : String
  step_id : String
  did : String
  step_status : AgentExecutionStatus
  input_query : Option String
  is_last : Bool
  output : List CharacterRecord
  extra : List (String × String)
  deriving DecidableEq, Repr

/-- Log levels used by the code (`info`, `warning`, `debug`, `error`). -/
inductive LogLevel where
  | info
  | warning
  | debug
  | error
  deriving DecidableEq, Repr

/-- A `TaskLogMessage` sent to `payments.query.logTask`. -/
structure TaskLogMessage where
  task_id : String
  level : LogLevel
  message : String
  task_status : Option AgentExecutionStatus
  deriving DecidableEq, Repr

/-- The parsed notification payload; `step_id` is optional because the
JSON may parse yet lack the field. -/
structure EventData where
  step_id : Option String
  deriving DecidableEq, Repr

/-- The `{status, data}` result of `payments.query.updateStep`. -/
structure UpdateResult where
  status : Nat
  data : String
  deriving DecidableEq, Repr

/-- Observable events of one `run` invocation, in program order:
local (pino) log lines, calls to the Step Store Client (`getStep`,
`logTask`, `updateStep`) and calls to the Extraction Capability. -/
inductive Event where
  | localLog (level : LogLevel) (message : String)
  | getStepCall (step_id : Option String)
  | logTaskCall (entry : TaskLogMessage)
  | extractCall (script : String)
  | updateStepCall (did : String) (update : Step)
  deriving DecidableEq, Repr

/-- Outcomes of the external collaborators for one notification:
`parseResult` is `none` when `JSON.parse` throws; `getStepResult`,
`extractResult` and `updateStepResult` are the outcomes of the
corresponding awaited calls; the four `logOk*` flags say whether the
`logTask` append at each of the four `logMessage` call sites succeeds
(each site is reached at most once per run). -/
structure World where
  parseResult : Option EventData
  getStepResult : Except String Step
  logOkStart : Bool
  logOkCompleted : Bool
  logOkUpdateErr : Bool
  logOkCatch : Bool
  extractResult : Except String (List CharacterRecord)
  updateStepResult : Except String UpdateResult
  deriving Repr

/-- Rendering of a status into the `[${step.step_status}]` log text. -/
def AgentExecutionStatus.text : AgentExecutionStatus → String
  | .Pending => "Pending"
  | .In_Progress => "In_Progress"
  | .Completed => "Completed"
  | .Failed => "Failed"

/-- Rendering of the parsed event payload into the
`Received event: ${JSON.stringify(eventData)}` log text. -/
def EventData.text (ed : EventData) : String :=
  match ed.step_id with
  | some s => s
  | none => "undefined"

/-- Rendering of the character list into the
`Extracted Characters: ${characterData}` log text (JS array-to-string
turns each object into `[object Object]`). -/
def charactersText (cs : List CharacterRecord) : String :=
  String.intercalate "," (cs.map fun _ => "[object Object]")

/-- `logMessage` from `src/main.ts` (lines 214-223): logs the message
locally at its level, then appends it to the Step Store log channel via
`payments.query.logTask`.  `ok` is whether that append succeeds; when it
fails the call site sees a rejection (second component `some error`).
The `logTaskCall` event records the attempted append. -/
def logMessage (ok : Bool) (entry : TaskLogMessage) :
    List Event × Option String :=
  ([Event.localLog entry.level entry.message, Event.logTaskCall entry],
   if ok then none else some "logTask failed")

/-- Body of the inner `try` of `run` (`src/main.ts` lines 162-194):
extract characters, log them, persist the update `{...step,
step_status: Completed, is_last: true, output: characterData}`, and
report the persistence outcome (`status === 201` is success).  A `some`
second component is an exception escaping to the inner `catch`. -/
def runInnerTry (w : World) (step : Step) (script : String) :
    List Event × Option String :=
  match w.extractResult with
  | .error e => ([Event.extractCall script], some e)
  | .ok characterData =>
    let updated : Step :=
      { step with step_status := .Completed, is_last := true,
                  output := characterData }
    let evs : List Event :=
      [Event.extractCall script,
       Event.localLog .info
         ("Extracted Characters: " ++ charactersText characterData),
       Event.updateStepCall step.did updated]
    match w.updateStepResult with
    | .error e => (evs, some e)
    | .ok updateResult =>
      if updateResult.status = 201 then
        let r := logMessage w.logOkCompleted
          { task_id := step.task_id, level := .info,
            message := "Character extraction completed.",
            task_status := some .Completed }
        (evs ++ r.1, r.2)
      else
        let r := logMessage w.logOkUpdateErr
          { task_id := step.task_id, level := .error,
            message := "Error updating step " ++ step.step_id ++ " - " ++
              updateResult.data,
            task_status := some .Failed }
        (evs ++ r.1, r.2)

/-- The inner `try`/`catch` of `run` (`src/main.ts` lines 162-204): any
exception from the try body is logged locally and reported through the
log channel with `level=error`, `task_status=Failed`; a failure of that
very report escapes to the outer catch. -/
def runInner (w : World) (step : Step) (script : String) :
    List Event × Option String :=
  match runInnerTry w step script with
  | (evs, none) => (evs, none)
  | (evs, some e) =>
    let r := logMessage w.logOkCatch
      { task_id := step.task_id, level := .error,
        message := "Error during character extraction: " ++ e,
        task_status := some .Failed }
    (evs ++
      [Event.localLog .error ("Error during character extraction: " ++ e)] ++
      r.1, r.2)

/-- Body of the outer `try` of `run` (`src/main.ts` lines 133-204):
parse the payload, fetch the step, guard on `Pending`, emit the
"processing started" log, validate the script and run the inner
section.  A `some` second component is an exception escaping to the
outer `catch`. -/
def runBody (w : World) : List Event × Option String :=
  match w.parseResult with
  | none => ([], some "Unexpected token in JSON")
  | some eventData =>
    let evs0 : List Event :=
      [Event.localLog .info ("Received event: " ++ eventData.text),
       Event.getStepCall eventData.step_id]
    match w.getStepResult with
    | .error e => (evs0, some e)
    | .ok step =>
      let evs1 := evs0 ++
        [Event.localLog .info
          ("Processing Step " ++ step.task_id ++ " - " ++ step.step_id ++
           " [" ++ step.step_status.text ++ "]")]
      if step.step_status ≠ AgentExecutionStatus.Pending then
        (evs1 ++
          [Event.localLog .warning
            ("Step " ++ step.step_id ++ " is not pending. Skipping...")],
         none)
      else
        let r := logMessage w.logOkStart
          { task_id := step.task_id, level := .info,
            message := "Starting character extraction...",
            task_status := none }
        match r.2 with
        | some e => (evs1 ++ r.1, some e)
        | none =>
          let script := step.input_query.getD ""
          if script = "" then
            (evs1 ++ r.1,
             some "Error: No script provided for character extraction.")
          else
            let ri := runInner w step script
            (evs1 ++ r.1 ++ ri.1, ri.2)

/-- `run` from `src/main.ts` (lines 131-208): the outer `try`/`catch`
around `runBody`.  The second component is the error (if any) that `run`
propagates to its caller; the outer catch logs every escaping error
locally and swallows it, so it is always `none`. -/
def run (w : World) : List Event × Option String :=
  match runBody w with
  | (evs, none) => (evs, none)
  | (evs, some e) =>
    (evs ++ [Event.localLog .error ("Error processing steps: " ++ e)], none)

/-- The trace of observable events of one `run` invocation. -/
def trace (w : World) : List Event := (run w).1

/-- Whether an event is a call to `payments.query.updateStep`. -/
def Event.isUpdateStepCall : Event → Bool
  | .updateStepCall _ _ => true
  | _ => false

/-- Whether an event is a call to the Extraction Capability. -/
def Event.isExtractCall : Event → Bool
  | .extractCall _ => true
  | _ => false

/-- Whether an event is an append to the Step Store log channel. -/
def Event.isLogTaskCall : Event → Bool
  | .logTaskCall _ => true
  | _ => false

/-- Whether an event is a warning-level log (local or channel). -/
def Event.isWarningLevel : Event → Bool
  | .localLog .warning _ => true
  | .logTaskCall en => en.level == LogLevel.warning
  | _ => false

/-- Whether an event is a local error-level log line. -/
def Event.isLocalError : Event → Bool
  | .localLog .error _ => true
  | _ => false

/-- The `(did, update)` arguments of the `updateStep` calls in a trace. -/
def updateCalls : List Event → List (String × Step)
  | [] => []
  | .updateStepCall d u :: rest => (d, u) :: updateCalls rest
  | _ :: rest => updateCalls rest

/-- The entries appended to the Step Store log channel in a trace. -/
def channelEntries : List Event → List TaskLogMessage
  | [] => []
  | .logTaskCall en :: rest => en :: channelEntries rest
  | _ :: rest => channelEntries rest

/-- Whether a channel entry is the info-level completion log with
`task_status=Completed`. -/
def isCompletedInfoEntry (en : TaskLogMessage) : Bool :=
  match en.level, en.task_status with
  | LogLevel.info, some AgentExecutionStatus.Completed => true
  | _, _ => false

/-- Whether a channel entry is an error-level log with
`task_status=Failed`. -/
def isFailedErrorEntry (en : TaskLogMessage) : Bool :=
  match en.level, en.task_status with
  | LogLevel.error, some AgentExecutionStatus.Failed => true
  | _, _ => false

/-- Modelled from the spec: the claim C3 speaks of an HTTP "success
range"; this predicate follows the spec's words (the 2xx range), to be
compared with the code's actual `status === 201` check. -/
def inSuccessRange (status : Nat) : Bool :=
  200 ≤ status && status < 300

/-- A Completed step used to instantiate the non-Pending guard claim. -/
def stepC1 : Step :=
  { task_id := "t1", step_id := "s2", did := "did:nv:1",
    step_status := .Completed,
    input_query := some "INT. PARK - DAY. Jane sits on a bench.",
    is_last := true, output := [], extra := [] }

/-- A world delivering a well-formed notification for `stepC1`. -/
def worldC1 : World :=
  { parseResult := some { step_id := some "s2" },
    getStepResult := .ok stepC1,
    logOkStart := true, logOkCompleted := true,
    logOkUpdateErr := true, logOkCatch := true,
    extractResult := .ok [], updateStepResult := .ok ⟨201, ""⟩ }

/-- C1: for every notification whose fetched step has `step_status`
different from Pending, `run` performs no step update, never invokes the
Extraction Capability, and emits exactly one warning-level log; in
particular a second invocation for a step already advanced to Completed
is a no-op. -/
theorem claim_C1 (w : World) (ed : EventData) (step : Step)
    (hp : w.parseResult = some ed)
    (hg : w.getStepResult = Except.ok step)
    (hs : step.step_status ≠ AgentExecutionStatus.Pending) :
    (trace w).countP Event.isUpdateStepCall = 0 ∧
    (trace w).countP Event.isExtractCall = 0 ∧
    (trace w).countP Event.isWarningLevel = 1 := by
  unfold trace run runBody
  rw [hp, hg]
  dsimp only
  rw [if_pos hs]
  simp [List.countP_cons, Event.isUpdateStepCall, Event.isExtractCall,
    Event.isWarningLevel]

/-- C1 instantiated: the guard fires on the concrete Completed step. -/
theorem claim_C1_witness :
    (trace worldC1).countP Event.isUpdateStepCall = 0 ∧
    (trace worldC1).countP Event.isExtractCall = 0 ∧
    (trace worldC1).countP Event.isWarningLevel = 1 :=
  claim_C1 worldC1 { step_id := some "s2" } stepC1 rfl rfl (by decide)

/-- C7: for every world — malformed payloads, failing fetches, failing
extraction, failing persistence and failing log appends included — `run`
terminates normally and propagates no error to its caller. -/
theorem claim_C7 (w : World) : (run w).2 = none := by
  unfold run
  rcases hrb : runBody w with ⟨evs, err⟩
  cases err <;> rfl

/-- A world whose notification payload does not parse. -/
def worldC8 : World :=
  { parseResult := none,
    getStepResult := .error "unreachable",
    logOkStart := true, logOkCompleted := true,
    logOkUpdateErr := true, logOkCatch := true,
    extractResult := .ok [], updateStepResult := .ok ⟨201, ""⟩ }

/-- C8: for every notification whose payload is malformed and for every
notification whose step fetch fails, `run` attempts no step update and
emits no entry through the Step Store log channel; the failure is logged
locally only (exactly one local error line).  A payload that parses but
lacks `step_id` is covered by the fetch-failure arm, since `getStep`
fails on an unknown (absent) id. -/
theorem claim_C8 (w : World)
    (h : w.parseResult = none ∨ ∃ e, w.getStepResult = Except.error e) :
    (trace w).countP Event.isUpdateStepCall = 0 ∧
    (trace w).countP Event.isLogTaskCall = 0 ∧
    (trace w).countP Event.isLocalError = 1 := by
  rcases h with hp | ⟨e, hg⟩
  · unfold trace run runBody
    rw [hp]
    simp [List.countP_cons, Event.isUpdateStepCall, Event.isLogTaskCall,
      Event.isLocalError]
  · rcases hpr : w.parseResult with _ | ed
    · unfold trace run runBody
      rw [hpr]
      simp [List.countP_cons, Event.isUpdateStepCall, Event.isLogTaskCall,
        Event.isLocalError]
    · unfold trace run runBody
      rw [hpr, hg]
      simp [List.countP_cons, Event.isUpdateStepCall, Event.isLogTaskCall,
        Event.isLocalError]

/-- C8 instantiated at the unparseable-payload world. -/
theorem claim_C8_witness :
    (trace worldC8).countP Event.isUpdateStepCall = 0 ∧
    (trace worldC8).countP Event.isLogTaskCall = 0 ∧
    (trace worldC8).countP Event.isLocalError = 1 :=
  claim_C8 worldC8 (Or.inl rfl)

/-- A Pending step whose `input_query` is the empty string. -/
def stepC2 : Step :=
  { task_id := "t3", step_id := "s3", did := "did:nv:3",
    step_status := .Pending, input_query := some "",
    is_last := false, output := [], extra := [] }

/-- A world delivering a well-formed notification for `stepC2`, with
every external call primed to succeed. -/
def worldC2 : World :=
  { parseResult := some { step_id := some "s3" },
    getStepResult := .ok stepC2,
    logOkStart := true, logOkCompleted := true,
    logOkUpdateErr := true, logOkCatch := true,
    extractResult := .ok [], updateStepResult := .ok ⟨201, ""⟩ }

/-- C2 counterexample: for the Pending step with empty `input_query`,
the code emits NO error-level entry through the log channel — the
validation `throw` at line 159 of `src/main.ts` sits before the inner
`try` (line 162), so it escapes to the outer catch, which logs locally
only.  This contradicts the claim that an error-level log with
`task_status=Failed` is emitted through the log channel. -/
theorem claim_C2_cex :
    (channelEntries (trace worldC2)).countP
      (fun en => en.level == LogLevel.error) = 0 := by decide

/-- C2 as amended: for every Pending step with empty (or absent)
`input_query`, `run` invokes no extraction, performs no step update, and
reports the failure as exactly one LOCAL error-level log line; no
error-level entry is appended to the Step Store log channel. -/
theorem claim_C2 (w : World) (ed : EventData) (step : Step)
    (hp : w.parseResult = some ed)
    (hg : w.getStepResult = Except.ok step)
    (hpend : step.step_status = AgentExecutionStatus.Pending)
    (hq : step.input_query.getD "" = "") :
    (trace w).countP Event.isExtractCall = 0 ∧
    (trace w).countP Event.isUpdateStepCall = 0 ∧
    (channelEntries (trace w)).countP
      (fun en => en.level == LogLevel.error) = 0 ∧
    (trace w).countP Event.isLocalError = 1 := by
  unfold trace run runBody
  rw [hp, hg]
  dsimp only
  rw [hpend]
  cases hls : w.logOkStart <;>
    simp [logMessage, hq, channelEntries, List.countP_cons,
      Event.isExtractCall, Event.isUpdateStepCall, Event.isLocalError]

/-- C2 (amended) instantiated at the concrete empty-input world. -/
theorem claim_C2_witness :
    (trace worldC2).countP Event.isExtractCall = 0 ∧
    (trace worldC2).countP Event.isUpdateStepCall = 0 ∧
    (channelEntries (trace worldC2)).countP
      (fun en => en.level == LogLevel.error) = 0 ∧
    (trace worldC2).countP Event.isLocalError = 1 :=
  claim_C2 worldC2 { step_id := some "s3" } stepC2 rfl rfl rfl rfl

/-- A Pending step with a non-empty script. -/
def stepC5 : Step :=
  { task_id := "t5", step_id := "s5", did := "did:nv:5",
    step_status := .Pending,
    input_query := some "INT. SHIP - NIGHT. An alien watches the stars.",
    is_last := false, output := [], extra := [] }

/-- A sample extracted character record. -/
def recC5 : CharacterRecord :=
  { name := "Unnamed Alien", age := "100s", gender := "unknown",
    species := "extraterrestrial",
    physical_description := "green slimy skin",
    attire := "regal crown", personality_traits := "wise",
    role := "council member", scene_description := "a grand hall",
    additional_notes := "deep voice" }

/-- A world in which everything would succeed except that the
"processing started" `logTask` append fails. -/
def worldC5 : World :=
  { parseResult := some { step_id := some "s5" },
    getStepResult := .ok stepC5,
    logOkStart := false, logOkCompleted := true,
    logOkUpdateErr := true, logOkCatch := true,
    extractResult := .ok [recC5], updateStepResult := .ok ⟨201, ""⟩ }

/-- C5 counterexample: with the "processing started" log append failing
on a Pending step with a non-empty script (and extraction primed to
succeed), NEITHER extraction NOR the step update occurs — the awaited
`logMessage` at line 150 of `src/main.ts` is outside any inner `try`, so
its rejection escapes to the outer catch and aborts the pipeline.  This
contradicts the claim that the pipeline still proceeds. -/
theorem claim_C5_cex :
    (trace worldC5).countP Event.isExtractCall = 0 ∧
    (trace worldC5).countP Event.isUpdateStepCall = 0 := by decide

/-- C5 as amended: a failure of the "processing started" log append
ABORTS the pipeline for a Pending step: no extraction and no step update
occur; the error is contained by the outermost handler and logged
locally (exactly one local error line), and nothing propagates to the
caller. -/
theorem claim_C5 (w : World) (ed : EventData) (step : Step)
    (hp : w.parseResult = some ed)
    (hg : w.getStepResult = Except.ok step)
    (hpend : step.step_status = AgentExecutionStatus.Pending)
    (hlog : w.logOkStart = false) :
    (trace w).countP Event.isExtractCall = 0 ∧
    (trace w).countP Event.isUpdateStepCall = 0 ∧
    (trace w).countP Event.isLocalError = 1 ∧
    (run w).2 = none := by
  unfold trace run runBody
  rw [hp, hg]
  dsimp only
  rw [hpend, hlog]
  simp [logMessage, List.countP_cons, Event.isExtractCall,
    Event.isUpdateStepCall, Event.isLocalError]

/-- C5 (amended) instantiated at the concrete failing-log world. -/
theorem claim_C5_witness :
    (trace worldC5).countP Event.isExtractCall = 0 ∧
    (trace worldC5).countP Event.isUpdateStepCall = 0 ∧
    (trace worldC5).countP Event.isLocalError = 1 ∧
    (run worldC5).2 = none :=
  claim_C5 worldC5 { step_id := some "s5" } stepC5 rfl rfl rfl rfl

/-- C10: a Pending step whose `input_query` is absent behaves exactly as
one whose `input_query` is the empty string: the missing value is
normalized to `""` by `step.input_query || ""`, so the whole run trace
is identical to the empty-string run, and in particular no extraction is
invoked and no step update is attempted. -/
theorem claim_C10 (w : World) (ed : EventData) (step : Step)
    (hp : w.parseResult = some ed)
    (hg : w.getStepResult = Except.ok step)
    (hq : step.input_query = none) :
    run w =
      run { w with
              getStepResult :=
                Except.ok { step with input_query := some "" } } ∧
    (trace w).countP Event.isExtractCall = 0 ∧
    (trace w).countP Event.isUpdateStepCall = 0 := by
  unfold trace run runBody
  rw [hp, hg]
  dsimp only
  rw [hq]
  by_cases hs : step.step_status = AgentExecutionStatus.Pending
  · rw [hs]
    cases hls : w.logOkStart <;>
      simp [logMessage, List.countP_cons, Event.isExtractCall,
        Event.isUpdateStepCall]
  · rw [if_pos hs, if_pos hs]
    simp [List.countP_cons, Event.isExtractCall, Event.isUpdateStepCall]

/-- A world whose step lacks the `input_query` field entirely. -/
def worldC10 : World :=
  { parseResult := some { step_id := some "s10" },
    getStepResult := .ok
      { task_id := "t10", step_id := "s10", did := "did:nv:10",
        step_status := .Pending, input_query := none,
        is_last := false, output := [], extra := [] },
    logOkStart := true, logOkCompleted := true,
    logOkUpdateErr := true, logOkCatch := true,
    extractResult := .ok [], updateStepResult := .ok ⟨201, ""⟩ }

/-- C10 instantiated at the concrete absent-input world. -/
theorem claim_C10_witness :
    run worldC10 =
      run { worldC10 with
              getStepResult :=
                Except.ok
                  { task_id := "t10", step_id := "s10", did := "did:nv:10",
                    step_status := .Pending, input_query := some "",
                    is_last := false, output := [], extra := [] } } ∧
    (trace worldC10).countP Event.isExtractCall = 0 ∧
    (trace worldC10).countP Event.isUpdateStepCall = 0 :=
  claim_C10 worldC10 { step_id := some "s10" }
    { task_id := "t10", step_id := "s10", did := "did:nv:10",
      step_status := .Pending, input_query := none,
      is_last := false, output := [], extra := [] } rfl rfl rfl

/-- `updateCalls` distributes over list append. -/
theorem updateCalls_append (l1 l2 : List Event) :
    updateCalls (l1 ++ l2) = updateCalls l1 ++ updateCalls l2 := by
  induction l1 with
  | nil => rfl
  | cons a t ih => cases a <;> simp [updateCalls, ih]

/-- `channelEntries` distributes over list append. -/
theorem channelEntries_append (l1 l2 : List Event) :
    channelEntries (l1 ++ l2) = channelEntries l1 ++ channelEntries l2 := by
  induction l1 with
  | nil => rfl
  | cons a t ih => cases a <;> simp [channelEntries, ih]

/-- The outer catch only appends a local log line, so the `updateStep`
calls of the full trace are those of the outer try body. -/
theorem updateCalls_trace (w : World) :
    updateCalls (trace w) = updateCalls (runBody w).1 := by
  unfold trace run
  rcases hrb : runBody w with ⟨evs, err⟩
  cases err <;> simp [updateCalls_append, updateCalls]

/-- The outer catch only appends a local log line, so the log-channel
entries of the full trace are those of the outer try body. -/
theorem channelEntries_trace (w : World) :
    channelEntries (trace w) = channelEntries (runBody w).1 := by
  unfold trace run
  rcases hrb : runBody w with ⟨evs, err⟩
  cases err <;> simp [channelEntries_append, channelEntries]

/-- On a Pending step with a successful "processing started" append and
a non-empty script, the outer try body is the fixed five-event prelude
followed by whatever the inner try/catch section does. -/
theorem runBody_pending (w : World) (ed : EventData) (step : Step)
    (hp : w.parseResult = some ed)
    (hg : w.getStepResult = Except.ok step)
    (hpend : step.step_status = AgentExecutionStatus.Pending)
    (hstart : w.logOkStart = true)
    (hq : step.input_query.getD "" ≠ "") :
    runBody w =
      ([Event.localLog .info ("Received event: " ++ ed.text),
        Event.getStepCall ed.step_id,
        Event.localLog .info
          ("Processing Step " ++ step.task_id ++ " - " ++ step.step_id ++
           " [" ++ "Pending" ++ "]"),
        Event.localLog .info "Starting character extraction...",
        Event.logTaskCall
          { task_id := step.task_id, level := .info,
            message := "Starting character extraction...",
            task_status := none }] ++
        (runInner w step (step.input_query.getD "")).1,
       (runInner w step (step.input_query.getD "")).2) := by
  unfold runBody
  rw [hp, hg]
  dsimp only
  rw [hpend, hstart]
  simp [logMessage, hq, AgentExecutionStatus.text]

/-- When extraction fails, the inner section performs the extraction
call, logs the error locally (twice: once directly and once inside
`logMessage`) and appends the `Failed` entry to the log channel. -/
theorem runInner_extract_error (w : World) (step : Step) (script : String)
    (e : String) (he : w.extractResult = Except.error e) :
    runInner w step script =
      ([Event.extractCall script,
        Event.localLog .error ("Error during character extraction: " ++ e),
        Event.localLog .error ("Error during character extraction: " ++ e),
        Event.logTaskCall
          { task_id := step.task_id, level := .error,
            message := "Error during character extraction: " ++ e,
            task_status := some .Failed }],
       if w.logOkCatch then none else some "logTask failed") := by
  unfold runInner runInnerTry
  rw [he]
  dsimp only
  simp [logMessage]

/-- When extraction succeeds, the inner section performs exactly one
`updateStep` call, whose argument is the fetched step with
`step_status`, `is_last` and `output` overridden. -/
theorem updateCalls_runInner_ok (w : World) (step : Step) (script : String)
    (chars : List CharacterRecord)
    (he : w.extractResult = Except.ok chars) :
    updateCalls (runInner w step script).1 =
      [(step.did,
        { step with step_status := .Completed, is_last := true,
                    output := chars })] := by
  unfold runInner runInnerTry
  rw [he]
  dsimp only
  rcases hu : w.updateStepResult with e | ur
  · cases hlc : w.logOkCatch <;>
      simp [logMessage, updateCalls, updateCalls_append]
  · dsimp only
    by_cases h201 : ur.status = 201
    · rw [if_pos h201]
      cases hoc : w.logOkCompleted <;> cases hlc : w.logOkCatch <;>
        simp [logMessage, updateCalls, updateCalls_append]
    · rw [if_neg h201]
      cases hoe : w.logOkUpdateErr <;> cases hlc : w.logOkCatch <;>
        simp [logMessage, updateCalls, updateCalls_append]

/-- A Pending step with the scenario script of the spec. -/
def stepC4 : Step :=
  { task_id := "t4", step_id := "s1", did := "did:nv:4",
    step_status := .Pending,
    input_query := some "INT. PARK - DAY. Jane, 30s, sits on a bench.",
    is_last := false, output := [], extra := [("cost", "1")] }

/-- A world in which extraction succeeds with one character and the
persisted update is accepted with status 201. -/
def worldC4 : World :=
  { parseResult := some { step_id := some "s1" },
    getStepResult := .ok stepC4,
    logOkStart := true, logOkCompleted := true,
    logOkUpdateErr := true, logOkCatch := true,
    extractResult := .ok [recC5], updateStepResult := .ok ⟨201, ""⟩ }

/-- C4: for every Pending step with a non-empty script whose extraction
succeeds, `run` persists exactly one step update, addressed to the
step's `did`, with `step_status=Completed`, `is_last=true` and `output`
equal to the character list returned by the Extraction Capability (one
entry per character, in the same order). -/
theorem claim_C4 (w : World) (ed : EventData) (step : Step)
    (chars : List CharacterRecord)
    (hp : w.parseResult = some ed)
    (hg : w.getStepResult = Except.ok step)
    (hpend : step.step_status = AgentExecutionStatus.Pending)
    (hstart : w.logOkStart = true)
    (hq : step.input_query.getD "" ≠ "")
    (he : w.extractResult = Except.ok chars) :
    ∃ u, updateCalls (trace w) = [(step.did, u)] ∧
      u.step_status = AgentExecutionStatus.Completed ∧
      u.is_last = true ∧ u.output = chars := by
  refine ⟨{ step with step_status := AgentExecutionStatus.Completed, is_last := true, output := chars }, ?_, rfl, rfl, rfl⟩
  rw [updateCalls_trace, runBody_pending w ed step hp hg hpend hstart hq]
  dsimp only
  rw [updateCalls_append, updateCalls_runInner_ok w step _ chars he]
  rfl

/-- C4 instantiated at the concrete success scenario. -/
theorem claim_C4_witness :
    ∃ u, updateCalls (trace worldC4) = [(stepC4.did, u)] ∧
      u.step_status = AgentExecutionStatus.Completed ∧
      u.is_last = true ∧ u.output = [recC5] :=
  claim_C4 worldC4 { step_id := some "s1" } stepC4 [recC5]
    rfl rfl rfl rfl (by decide) rfl

/-- C9: on the success path, the single update passed to `updateStep` is
the fetched step with exactly `step_status`, `is_last` and `output`
overridden — every other field (`task_id`, `step_id`, `did`,
`input_query` and the remaining payload fields `extra`) is preserved
unchanged by the spread. -/
theorem claim_C9 (w : World) (ed : EventData) (step : Step)
    (chars : List CharacterRecord)
    (hp : w.parseResult = some ed)
    (hg : w.getStepResult = Except.ok step)
    (hpend : step.step_status = AgentExecutionStatus.Pending)
    (hstart : w.logOkStart = true)
    (hq : step.input_query.getD "" ≠ "")
    (he : w.extractResult = Except.ok chars) :
    updateCalls (trace w) =
      [(step.did,
        { step with step_status := .Completed, is_last := true,
                    output := chars })] := by
  rw [updateCalls_trace, runBody_pending w ed step hp hg hpend hstart hq]
  dsimp only
  rw [updateCalls_append, updateCalls_runInner_ok w step _ chars he]
  rfl

/-- C9 instantiated at the concrete success scenario: the extra payload
field survives the update untouched. -/
theorem claim_C9_witness :
    updateCalls (trace worldC4) =
      [(stepC4.did,
        { stepC4 with step_status := .Completed, is_last := true,
                      output := [recC5] })] :=
  claim_C9 worldC4 { step_id := some "s1" } stepC4 [recC5]
    rfl rfl rfl rfl (by decide) rfl

/-- A world delivering a Pending step with a good script whose
extraction fails. -/
def worldC6 : World :=
  { parseResult := some { step_id := some "s4" },
    getStepResult := .ok
      { task_id := "t6", step_id := "s4", did := "did:nv:6",
        step_status := .Pending,
        input_query := some "EXT. STREET - DAY. A courier runs.",
        is_last := false, output := [], extra := [] },
    logOkStart := true, logOkCompleted := true,
    logOkUpdateErr := true, logOkCatch := true,
    extractResult := .error "LLM timeout",
    updateStepResult := .ok ⟨201, ""⟩ }

/-- C6: for every extraction failure on a Pending step with a non-empty
script, `run` attempts no step update, appends an error-level entry with
`task_status=Failed` whose message carries the failure description to
the log channel, and propagates nothing to its caller. -/
theorem claim_C6 (w : World) (ed : EventData) (step : Step) (e : String)
    (hp : w.parseResult = some ed)
    (hg : w.getStepResult = Except.ok step)
    (hpend : step.step_status = AgentExecutionStatus.Pending)
    (hstart : w.logOkStart = true)
    (hq : step.input_query.getD "" ≠ "")
    (he : w.extractResult = Except.error e) :
    updateCalls (trace w) = [] ∧
    (∃ en ∈ channelEntries (trace w),
        en.level = LogLevel.error ∧
        en.task_status = some AgentExecutionStatus.Failed ∧
        en.message = "Error during character extraction: " ++ e) ∧
    (run w).2 = none := by
  refine ⟨?_, ?_, ?_⟩
  · rw [updateCalls_trace, runBody_pending w ed step hp hg hpend hstart hq]
    dsimp only
    rw [updateCalls_append,
        runInner_extract_error w step (step.input_query.getD "") e he]
    rfl
  · rw [channelEntries_trace, runBody_pending w ed step hp hg hpend hstart hq]
    dsimp only
    rw [channelEntries_append,
        runInner_extract_error w step (step.input_query.getD "") e he]
    refine ⟨{ task_id := step.task_id, level := .error, message := "Error during character extraction: " ++ e, task_status := some AgentExecutionStatus.Failed }, ?_, rfl, rfl, rfl⟩
    simp [channelEntries]
  · unfold run
    rcases hrb : runBody w with ⟨evs, err⟩
    cases err <;> rfl

/-- C6 instantiated at the concrete failing-extraction world. -/
theorem claim_C6_witness :
    updateCalls (trace worldC6) = [] ∧
    (∃ en ∈ channelEntries (trace worldC6),
        en.level = LogLevel.error ∧
        en.task_status = some AgentExecutionStatus.Failed ∧
        en.message = "Error during character extraction: " ++ "LLM timeout") ∧
    (run worldC6).2 = none :=
  claim_C6 worldC6 { step_id := some "s4" }
    { task_id := "t6", step_id := "s4", did := "did:nv:6",
      step_status := .Pending,
      input_query := some "EXT. STREET - DAY. A courier runs.",
      is_last := false, output := [], extra := [] }
    "LLM timeout" rfl rfl rfl rfl (by decide) rfl

/-- A world where extraction succeeds and `updateStep` answers with the
success-range status 200 (not 201). -/
def worldC3 : World :=
  { parseResult := some { step_id := some "s1" },
    getStepResult := .ok stepC4,
    logOkStart := true, logOkCompleted := true,
    logOkUpdateErr := true, logOkCatch := true,
    extractResult := .ok [recC5],
    updateStepResult := .ok ⟨200, "accepted"⟩ }

/-- C3 counterexample: status 200 lies in the HTTP success range, yet
the code (`updateResult.status === 201` at line 178 of `src/main.ts`)
treats it as failure: no info-level completion entry with
`task_status=Completed` is appended, and an error-level entry with
`task_status=Failed` is appended instead.  This contradicts the claim
that every success-range status is treated as accepted. -/
theorem claim_C3_cex :
    inSuccessRange 200 = true ∧
    (channelEntries (trace worldC3)).countP isCompletedInfoEntry = 0 ∧
    (channelEntries (trace worldC3)).countP isFailedErrorEntry = 1 := by
  decide

/-- C3 as amended: only the exact status 201 is treated as an accepted
write (an info-level completion entry with `task_status=Completed` is
appended); EVERY other status — other success-range statuses such as 200
included — is treated as a processing failure (an error-level entry with
`task_status=Failed` is appended). -/
theorem claim_C3 (w : World) (ed : EventData) (step : Step)
    (chars : List CharacterRecord) (ur : UpdateResult)
    (hp : w.parseResult = some ed)
    (hg : w.getStepResult = Except.ok step)
    (hpend : step.step_status = AgentExecutionStatus.Pending)
    (hstart : w.logOkStart = true)
    (hq : step.input_query.getD "" ≠ "")
    (he : w.extractResult = Except.ok chars)
    (hu : w.updateStepResult = Except.ok ur) :
    (ur.status = 201 →
      (channelEntries (trace w)).countP isCompletedInfoEntry = 1) ∧
    (ur.status ≠ 201 →
      (channelEntries (trace w)).countP isCompletedInfoEntry = 0 ∧
      1 ≤ (channelEntries (trace w)).countP isFailedErrorEntry) := by
  rw [channelEntries_trace, runBody_pending w ed step hp hg hpend hstart hq]
  dsimp only
  rw [channelEntries_append]
  unfold runInner runInnerTry
  rw [he, hu]
  dsimp only
  constructor
  · intro h201
    rw [if_pos h201]
    cases hoc : w.logOkCompleted <;> cases hlc : w.logOkCatch <;>
      simp [logMessage, channelEntries, channelEntries_append,
        isCompletedInfoEntry, List.countP_cons]
  · intro h201
    rw [if_neg h201]
    cases hoe : w.logOkUpdateErr <;> cases hlc : w.logOkCatch <;>
      simp [logMessage, channelEntries, channelEntries_append,
        isCompletedInfoEntry, isFailedErrorEntry, List.countP_cons]

/-- C3 (amended) instantiated: a 201 answer yields exactly one
completion entry. -/
theorem claim_C3_witness :
    ((201 : Nat) = 201 →
      (channelEntries (trace worldC4)).countP isCompletedInfoEntry = 1) ∧
    ((201 : Nat) ≠ 201 →
      (channelEntries (trace worldC4)).countP isCompletedInfoEntry = 0 ∧
      1 ≤ (channelEntries (trace worldC4)).countP isFailedErrorEntry) :=
  claim_C3 worldC4 { step_id := some "s1" } stepC4 [recC5] ⟨201, ""⟩
    rfl rfl rfl rfl (by decide) rfl rfl

end CharacterExtractorAgent
